import Mathlib

/-!
Verification of `dlfelis.tap_schema`: a shallow embedding of the translation
from a TAP schema JSON document to a Felis schema object graph, together with
the three normalization tables (`felis_datatypes`, `felis_units`, `felis_ucds`)
and the `validate` wrapper around the external `felis validate` command.

The embedding follows `src/dlfelis/tap_schema.py`: JSON records become Lean
structures, the Python dict literals become association lists, the translation
loop in `main` (lines 260-322) becomes `tapToFelis`, the `assert` statements
become `Except.error` outcomes, and `validate` (lines 212-237) becomes a pure
function from the subprocess observables (stdout, stderr, return code) to the
returned status and the sequence of messages logged at error severity.
-/

namespace TapSchema

/-- A record from the `schemas` array of the TAP JSON document. -/
structure Schema where
  schema_name : String
  description : String
deriving DecidableEq, Inhabited

/-- A record from the `tables` array of the TAP JSON document. -/
structure Table where
  schema_name : String
  table_name : String
  description : String
deriving DecidableEq, Inhabited

/-- A record from the `columns` array of the TAP JSON document. -/
structure Column where
  table_name : String
  column_name : String
  description : String
  datatype : String
  size : Nat
  principal : Bool
  std : Bool
  indexed : Bool
  unit : String
  ucd : String
deriving DecidableEq, Inhabited

/-- The parsed TAP JSON document (`json_schema` in the source). -/
structure TapSchemaDocument where
  schemas : List Schema
  tables : List Table
  columns : List Column
deriving DecidableEq, Inhabited

/-- The fixed `version` block of the output Felis schema node. -/
structure Version where
  current : String
  compatible : List String
  read_compatible : List String
deriving DecidableEq, Inhabited

/-- An output Felis index node (`felis_index` in the source). -/
structure FelisIndex where
  name : String
  atId : String
  columns : List String
deriving DecidableEq, Inhabited

/-- An output Felis column node (`felis_column` in the source).  Optional
fields that the source adds conditionally (`length`, `fits:tunit`,
`ivoa:ucd`) are `Option`s: `none` means the key is absent from the dict. -/
structure FelisColumn where
  name : String
  atId : String
  description : String
  datatype : String
  nullable : Bool
  tap_principal : Bool
  tap_std : Bool
  tap_column_index : Nat
  length : Option Nat
  fits_tunit : Option String
  ivoa_ucd : Option String
deriving DecidableEq, Inhabited

/-- An output Felis table node (`felis_table` in the source). -/
structure FelisTable where
  name : String
  atId : String
  description : String
  tap_table_index : Nat
  primaryKey : String
  indexes : List FelisIndex
  columns : List FelisColumn
deriving DecidableEq, Inhabited

/-- The output Felis schema node (`felis_schema` in the source). -/
structure FelisSchema where
  name : String
  atId : String
  description : String
  version : Version
  tables : List FelisTable
deriving DecidableEq, Inhabited

/-- Conversion between types used in TapSchema and types required by Felis
(the `felis_datatypes` dict, source lines 24-61). -/
def felis_datatypes : List (String × String) :=
  [("bigint", "long"),
   ("BIGINT", "long"),
   ("integer", "int"),
   ("INTEGER", "int"),
   ("smallint", "short"),
   ("SMALLINT", "short"),
   ("real", "float"),
   ("REAL", "float"),
   ("character", "char"),
   ("CHAR", "char"),
   ("varchar", "string"),
   ("DOUBLE", "double"),
   ("adql:INTEGER", "int"),
   ("adql:integer", "int"),
   ("adql:SMALLINT", "short"),
   ("adql:smallint", "short"),
   ("adql:SMALLINT[]", "short"),
   ("adql:BIGINT", "long"),
   ("adql:bigint", "long"),
   ("adql:REAL", "float"),
   ("adql:real", "float"),
   ("adql:REAL[]", "float"),
   ("adql:DOUBLE", "double"),
   ("adql:double", "double"),
   ("adql:DOUBLE[]", "double"),
   ("adql:CHAR", "char"),
   ("adql:char", "char"),
   ("adql:character", "char"),
   ("adql:character(1)", "char"),
   ("adql:VARCHAR", "string"),
   ("adql:varchar", "string"),
   ("adql:VARCHAR(n)", "string"),
   ("adql:TIMESTAMP", "timestamp"),
   ("adql:POINT", "point"),
   ("adql:REGION", "region"),
   ("adql:BOOLEAN", "boolean"),
   ("adql:text", "string")]

/-- Conversion between units used in TapSchema and units recommended by Felis
(the `felis_units` dict, source lines 66-153). -/
def felis_units : List (String × String) :=
  [("nanomaggies", "nanomaggy"),
   ("Mgy", "mgy"),
   ("nanomaggies^2", "nanomaggy^2"),
   ("nanomaggies^\x7b-2\x7d", "nanomaggy^-2"),
   ("1/nanomaggies^2", "nanomaggy^-2"),
   ("nanomaggies/arcsec^2", "nanomaggy arcsec^-2"),
   ("1e-17 erg/s/cm^2/AA", "1e-17 erg s-1 cm-2 Angstrom-1"),
   ("10<sup>-17</sup> ergs/cm<sup>2</sup>/s/A", "1e-17 erg s-1 cm-2 Angstrom-1"),
   ("erg/cm2/s/A", "erg cm-2 s-1 Angstrom-1"),
   ("erg/s/A", "erg s-1 Angstrom-1"),
   ("erg/cm2/s/A/A", "erg cm-2 s-1 Angstrom-2"),
   ("1e-17 erg/s/cm^2", "1e-17 erg s-1 cm-2"),
   ("10<sup>-17</sup> ergs/cm<sup>2</sup>/s", "1e-17 erg s-1 cm-2"),
   ("ergs/cm2/s", "erg s-1 cm-2"),
   ("erg/cm2/s", "erg s-1 cm-2"),
   ("W/m2/Hz", "W m-2 Hz-1"),
   ("log(counts/s)", "dex(count/s)"),
   ("Counts", "count"),
   ("Electrons", "electron"),
   ("sec", "s"),
   ("seconds", "s"),
   ("Seconds", "s"),
   ("days", "d"),
   ("Days", "d"),
   ("years", "yr"),
   ("Julian years", "yr"),
   ("Gyrs", "Gyr"),
   ("Arcsec", "arcsec"),
   ("Arcseconds", "arcsec"),
   ("Arcseconds^2", "arcsec^2"),
   ("Milliarcseconds/year", "milliarcsecond/yr"),
   ("Angstroms", "Angstrom"),
   ("Ang", "Angstrom"),
   ("microns", "um"),
   ("degrees", "deg"),
   ("Degrees", "deg"),
   ("1/Degrees", "1/deg"),
   ("ADU", "adu"),
   ("pixels", "pixel"),
   ("Pixels", "pixel"),
   ("celsius", "Celsius"),
   ("micro-Janskys", "uJy"),
   ("magnitudes", "mag"),
   ("mags", "mag"),
   ("Magnitude", "mag"),
   ("Magnitudes", "mag"),
   ("Mag", "mag"),
   ("AB mags", "AB mag"),
   ("[mag x arcsec^\x7b-2\x7d]", "mag/arcsec^2"),
   ("mag./sq.arcsec", "mag/arcsec^2"),
   ("None", ""),
   ("Dimensionless", ""),
   ("Frequency[1/day]", "1/day"),
   ("e-/s", "electron/s"),
   ("Electrons/ADU", "electron/adu"),
   ("Time[Barycentric JD in TCB - 2455197.5 (day)]", "d"),
   ("Angle[mas^-2]", "mas^-2"),
   ("log(cm.s**-2)", "dex(cm/s2)"),
   ("[10-7W]", "10-7W"),
   ("[cW/m2/nm]", "cW m-2 nm-1"),
   ("[cw/m2/nm]", "cW m-2 nm-1"),
   ("kilobytes", "kilobyte"),
   ("1/(mas/yr)^2", "mas2 yr-2"),
   ("1/(mas/year)^2", "mas2 yr-2"),
   ("1/(mas)^2", "mas^-2"),
   ("m_sun", "M_sun"),
   ("l_sun", "L_sun"),
   ("r_sun", "R_sun"),
   ("Solar radius", "R_sun"),
   ("r_sun/year", "R_sun/yr"),
   ("m_sun/year", "M_sun/yr"),
   ("kelvin", "Kelvin"),
   ("log10(M_sun)", "dex(M_sun)"),
   ("log Gyr<sup>-1</sup>", "dex(Gyr^-1)"),
   ("log(count/s)", "dex(count/s)"),
   ("log(cm^-2)", "dex(cm^-2)"),
   ("Km/s", "km/s"),
   ("ergs/s", "erg/s"),
   ("solar masses per year", "M_sun/yr"),
   ("log(M_solar)", "dex(M_sun)"),
   ("dex (solar masses)", "dex(M_sun)"),
   ("solar mass", "M_sun"),
   ("solar metallicity", ""),
   ("E(B-V) mag", "mag"),
   ("(3.63 nJy)^2", "13.1769 nJy^2"),
   ("sexigesimal hours", "deg"),
   ("sexigesimal degrees", "deg")]

/-- Conversion between UCDs used in some json files and UCDs required by
felis/IVOA (the `felis_ucds` dict, source lines 158-188). -/
def felis_ucds : List (String × String) :=
  [("pos.gal.lon", "pos.galactic.lon"),
   ("pos.gal.lat", "pos.galactic.lat"),
   ("pos.ecl.lon", "pos.ecliptic.lon"),
   ("pos.ecl.lat", "pos.ecliptic.lat"),
   ("stat.ratio", "stat.snr"),
   ("instr.filter", "phys.transmission;instr.filter"),
   ("src.var;meta.number", "meta.number;src.var"),
   ("phys.proper_motion", "pos.pm"),
   ("phys.parallax", "pos.parallax"),
   ("id_number", "meta.record"),
   ("refer_code", "meta.ref"),
   ("pos_eq_dec_off", "pos.eq.dec;instr.offset"),
   ("pos_eq_ra_off", "pos.eq.ra;instr.offset"),
   ("stat_prop", "stat.probability"),
   ("pos_pos-ang", "pos.posAng"),
   ("phys_ellipticity", "src.ellipticity"),
   ("morph_param", "src.morph.param"),
   ("error", "stat.error"),
   ("phot_mag", "phot.mag"),
   ("phot_color", "phot.color"),
   ("pos_gal_lat", "pos.galactic.lat"),
   ("pos_gal_lon", "pos.galactic.lon"),
   ("pos_eq_x", "pos.cartesian.x"),
   ("pos_eq_y", "pos.cartesian.y"),
   ("pos_eq_z", "pos.cartesian.z"),
   ("number", "meta.number"),
   ("time_epoch", "time.epoch"),
   ("fit_chi2", "stat.fit.chi2"),
   ("pos_eq_pmra", "pos.pm;pos.eq.ra"),
   ("pos_eq_pmdec", "pos.pm;pos.eq.dec")]

/-- Exact-match lookup with pass-through on a missing key.  This is the
`try`/`except KeyError` idiom of lines 285-288 and the `in`-tests of lines
311-319: a key present in the table maps to its value, anything else is
returned unchanged. -/
def lookupOr (table : List (String × String)) (s : String) : String :=
  match table.lookup s with
  | some v => v
  | none => s

/-- The structural preconditions of `main`, each an `assert` in the source:
`len(json_schema['schemas']) == 1` (line 257), `schema_name == basename`
(line 258), and per-table `schema_name == basename` (line 269). -/
inductive ContractViolation where
  | schemaCount : ContractViolation
  | schemaNameMismatch : ContractViolation
  | tableSchemaMismatch : ContractViolation
deriving DecidableEq, Inhabited

/-- The column-selection rule of lines 277-279: the columns whose
`table_name` equals the bare table name or the `{schema}.{table}` form. -/
def filterColumns (basename tname : String) (columns : List Column) : List Column :=
  columns.filter fun c => c.table_name == tname || c.table_name == basename ++ "." ++ tname

/-- The `felis_column` construction of lines 281-319 for the column at
0-based position `column_index` of the table's filtered column list. -/
def buildColumn (basename tname : String) (c : Column) (column_index : Nat) : FelisColumn :=
  let felis_datatype := lookupOr felis_datatypes c.datatype
  { name := c.column_name
  , atId := "#" ++ basename ++ "." ++ tname ++ "." ++ c.column_name
  , description := c.description
  , datatype := felis_datatype
  , nullable := false
  , tap_principal := c.principal
  , tap_std := c.std
  , tap_column_index := column_index + 1
  , length := if felis_datatype ∈ ["string", "char"] then some c.size else none
  , fits_tunit := if c.unit ≠ "" then some (lookupOr felis_units c.unit) else none
  , ivoa_ucd := if c.ucd ≠ "" then some (lookupOr felis_ucds c.ucd) else none }

/-- The `felis_index` construction of lines 305-309; `columns` holds the
owning column's `@id`. -/
def buildIndex (basename tname : String) (c : Column) : FelisIndex :=
  { name := tname ++ "_" ++ c.column_name ++ "_idx"
  , atId := "#" ++ tname ++ "_" ++ c.column_name ++ "_idx"
  , columns := ["#" ++ basename ++ "." ++ tname ++ "." ++ c.column_name] }

/-- Map with the 0-based position of each element, starting from `i`; this is
Python's `enumerate` as used on lines 268 and 281. -/
def enumMap (f : Nat → α → β) : Nat → List α → List β
  | _, [] => []
  | i, x :: xs => f i x :: enumMap f (i + 1) xs

/-- The `felis_table` construction of lines 270-320 for the table at 0-based
position `tap_index` of the input table list. -/
def buildTable (basename : String) (tap_index : Nat) (t : Table) (columns : List Column) : FelisTable :=
  let json_columns := filterColumns basename t.table_name columns
  { name := t.table_name
  , atId := "#" ++ basename ++ "." ++ t.table_name
  , description := t.description
  , tap_table_index := tap_index + 1
  , primaryKey := ""
  , indexes := (json_columns.filter fun c => c.indexed).map (buildIndex basename t.table_name)
  , columns := enumMap (fun j c => buildColumn basename t.table_name c j) 0 json_columns }

/-- The table loop of lines 268-322: each table's `schema_name` is checked
against the basename (the `assert` of line 269) before its node is built; a
failure aborts the whole translation. -/
def buildTables (basename : String) (columns : List Column) :
    Nat → List Table → Except ContractViolation (List FelisTable)
  | _, [] => Except.ok []
  | i, t :: ts =>
    if t.schema_name = basename then
      match buildTables basename columns (i + 1) ts with
      | Except.ok rest => Except.ok (buildTable basename i t columns :: rest)
      | Except.error e => Except.error e
    else Except.error ContractViolation.tableSchemaMismatch

/-- The translation performed by `main` (lines 257-322), from the parsed
document and the base filename to the Felis schema graph.  The two schema
`assert`s and the per-table `assert` become `Except.error` outcomes; on
success the graph of lines 260-266 is returned with its table list filled. -/
def tapToFelis (basename : String) (doc : TapSchemaDocument) : Except ContractViolation FelisSchema :=
  match doc.schemas with
  | [s] =>
    if s.schema_name = basename then
      match buildTables basename doc.columns 0 doc.tables with
      | Except.ok ts => Except.ok
          { name := s.schema_name
          , atId := "#" ++ s.schema_name
          , description := s.description
          , version := { current := "v1", compatible := ["v1"], read_compatible := ["v1"] }
          , tables := ts }
      | Except.error e => Except.error e
    else Except.error ContractViolation.schemaNameMismatch
  | _ => Except.error ContractViolation.schemaCount

/-- The observable behavior of `validate` (lines 212-237) as a function of
the subprocess observables: the decoded stdout, decoded stderr, and return
code of `felis validate {filename}`.  The first component is the returned
status; the second is the sequence of messages logged at error severity, in
order.  `if out:` is Python truthiness on a string, i.e. non-emptiness. -/
def validate (filename out err : String) (returncode : Int) : Int × List String :=
  if returncode ≠ 0 ∨ err ≠ "INFO:felis:Validating " ++ filename ++ "\n" then
    (returncode, (if out ≠ "" then ["STDOUT =", out] else []) ++ ["STDERR =", err])
  else
    (returncode, [])

/-- The status returned by `main` (lines 333-338): the validator's status
when validation is enabled, `0` when it is skipped. -/
def mainStatus (doValidate : Bool) (validatorStatus : Int) : Int :=
  if doValidate then validatorStatus else 0

/-- A concrete table record used to instantiate the theorems below. -/
def photoObjTable : Table :=
  { schema_name := "sdss", table_name := "PhotoObj", description := "photo" }

/-- A second concrete table record. -/
def specObjTable : Table :=
  { schema_name := "sdss", table_name := "SpecObj", description := "spec" }

/-- A column with a bare `table_name`, a mapped datatype and unit, no UCD. -/
def raColumn : Column :=
  { table_name := "PhotoObj", column_name := "ra", description := "RA",
    datatype := "real", size := 0, principal := true, std := true,
    indexed := false, unit := "degrees", ucd := "" }

/-- An indexed `varchar` column with a qualified `table_name`, a unit mapped
to the empty string, and a mapped UCD. -/
def objnameColumn : Column :=
  { table_name := "sdss.PhotoObj", column_name := "objname", description := "n",
    datatype := "varchar", size := 20, principal := false, std := false,
    indexed := true, unit := "None", ucd := "pos.gal.lon" }

/-- A column whose `table_name` matches no table by either form. -/
def lostColumn : Column :=
  { table_name := "Nowhere", column_name := "lost", description := "l",
    datatype := "real", size := 0, principal := false, std := false,
    indexed := true, unit := "degrees", ucd := "" }

/-- A column with unmapped datatype, unit, and UCD strings. -/
def zColumn : Column :=
  { table_name := "SpecObj", column_name := "z", description := "redshift",
    datatype := "unknowntype", size := 3, principal := true, std := false,
    indexed := true, unit := "weird unit", ucd := "weird.ucd" }

/-- A concrete document satisfying all preconditions, used to instantiate
the theorems below.  It exercises a bare and a qualified `table_name`, an
unmatched column, an indexed `varchar` column, a unit mapped to the empty
string, and unmapped datatype/unit/UCD strings. -/
def exampleDoc : TapSchemaDocument :=
  { schemas := [{ schema_name := "sdss", description := "Sloan" }]
  , tables := [photoObjTable, specObjTable]
  , columns := [raColumn, objnameColumn, lostColumn, zColumn] }

/-- The Felis graph produced from `exampleDoc`. -/
def exampleOut : FelisSchema := ((tapToFelis "sdss" exampleDoc).toOption).getD default

/-- The document with no `schemas` record at all. -/
def emptyDoc : TapSchemaDocument := { schemas := [], tables := [], columns := [] }

theorem enumMap_length (f : Nat → α → β) (i : Nat) (l : List α) :
    (enumMap f i l).length = l.length := by
  induction l generalizing i with
  | nil => rfl
  | cons x xs ih => simp [enumMap, ih]

theorem enumMap_get? (f : Nat → α → β) (l : List α) :
    ∀ (i j : Nat), (enumMap f i l).get? j = (l.get? j).map fun x => f (i + j) x := by
  induction l with
  | nil => intro i j; simp [enumMap]
  | cons x xs ih =>
    intro i j
    cases j with
    | zero => simp [enumMap]
    | succ j =>
      have h : i + 1 + j = i + (j + 1) := by omega
      show (enumMap f (i + 1) xs).get? j = _
      rw [ih (i + 1) j, h]
      rfl

theorem mem_enumMap {f : Nat → α → β} {y : β} {i : Nat} {l : List α} :
    y ∈ enumMap f i l ↔ ∃ j x, l.get? j = some x ∧ y = f (i + j) x := by
  rw [List.mem_iff_get?]
  constructor
  · rintro ⟨n, hn⟩
    rw [enumMap_get? f l i n, Option.map_eq_some'] at hn
    obtain ⟨x, hx, hfx⟩ := hn
    exact ⟨n, x, hx, hfx.symm⟩
  · rintro ⟨j, x, hx, rfl⟩
    exact ⟨j, by rw [enumMap_get? f l i j, hx]; rfl⟩

theorem buildTables_ok_iff (basename : String) (columns : List Column) :
    ∀ (i : Nat) (ts : List Table) (res : List FelisTable),
      buildTables basename columns i ts = Except.ok res ↔
        ((∀ t ∈ ts, t.schema_name = basename) ∧
          res = enumMap (fun k t => buildTable basename k t columns) i ts) := by
  intro i ts
  induction ts generalizing i with
  | nil => intro res; simp [buildTables, enumMap, eq_comm]
  | cons t ts ih =>
    intro res
    simp only [buildTables]
    by_cases h : t.schema_name = basename
    · rw [if_pos h]
      cases hb : buildTables basename columns (i + 1) ts with
      | ok rest =>
        have hrest := (ih (i + 1) rest).mp hb
        simp only [Except.ok.injEq]
        constructor
        · intro he
          refine ⟨?_, ?_⟩
          · intro t2 ht2
            rcases List.mem_cons.mp ht2 with h2 | h2
            · exact h2 ▸ h
            · exact hrest.1 t2 h2
          · rw [← he, enumMap, ← hrest.2]
        · rintro ⟨hall, rfl⟩
          rw [enumMap, ← hrest.2]
      | error e =>
        simp only []
        constructor
        · intro he; simp at he
        · rintro ⟨hall, rfl⟩
          have hok : buildTables basename columns (i + 1) ts =
              Except.ok (enumMap (fun k t => buildTable basename k t columns) (i + 1) ts) :=
            (ih (i + 1) _).mpr ⟨fun t2 ht2 => hall t2 (List.mem_cons_of_mem _ ht2), rfl⟩
          rw [hb] at hok
          simp at hok
    · rw [if_neg h]
      constructor
      · intro he; simp at he
      · rintro ⟨hall, _⟩
        exact absurd (hall t (List.mem_cons_self t ts)) h

theorem tapToFelis_ok_iff (basename : String) (doc : TapSchemaDocument) (res : FelisSchema) :
    tapToFelis basename doc = Except.ok res ↔
      ∃ s, doc.schemas = [s] ∧ s.schema_name = basename ∧
        (∀ t ∈ doc.tables, t.schema_name = basename) ∧
        res = { name := s.schema_name
              , atId := "#" ++ s.schema_name
              , description := s.description
              , version := { current := "v1", compatible := ["v1"], read_compatible := ["v1"] }
              , tables := enumMap (fun k t => buildTable basename k t doc.columns) 0 doc.tables } := by
  obtain ⟨ss, tbls, cols⟩ := doc
  rcases ss with _ | ⟨s, _ | ⟨s2, rest⟩⟩
  · simp [tapToFelis]
  · simp only [tapToFelis]
    by_cases h : s.schema_name = basename
    · rw [if_pos h]
      cases hb : buildTables basename cols 0 tbls with
      | ok ts =>
        have hts := (buildTables_ok_iff basename cols 0 tbls ts).mp hb
        simp only [Except.ok.injEq]
        constructor
        · intro he
          exact ⟨s, rfl, h, hts.1, by rw [← he, hts.2]⟩
        · rintro ⟨s3, hs3, hn3, hall3, rfl⟩
          injection hs3 with h1 _
          subst h1
          rw [hts.2]
      | error e =>
        constructor
        · intro he; simp at he
        · rintro ⟨s3, hs3, hn3, hall3, rfl⟩
          have hok := (buildTables_ok_iff basename cols 0 tbls _).mpr ⟨hall3, rfl⟩
          rw [hb] at hok
          simp at hok
    · rw [if_neg h]
      constructor
      · intro he; simp at he
      · rintro ⟨s3, hs3, hn3, _, _⟩
        injection hs3 with h1 _
        exact absurd (h1 ▸ hn3) h
  · constructor
    · intro he; simp [tapToFelis] at he
    · rintro ⟨s3, hs3, _, _, _⟩
      simp at hs3

theorem tapToFelis_tables (b : String) (doc : TapSchemaDocument) (res : FelisSchema)
    (h : tapToFelis b doc = Except.ok res) :
    res.tables.length = doc.tables.length ∧
    ∀ i, res.tables.get? i = (doc.tables.get? i).map fun t => buildTable b i t doc.columns := by
  obtain ⟨s, hs, hname, hall, rfl⟩ := (tapToFelis_ok_iff b doc res).mp h
  constructor
  · exact enumMap_length _ 0 doc.tables
  · intro i
    show (enumMap (fun k t => buildTable b k t doc.columns) 0 doc.tables).get? i = _
    rw [enumMap_get? _ doc.tables 0 i]
    simp

theorem buildTable_columns_get? (b : String) (i : Nat) (t : Table) (cols : List Column) (j : Nat) :
    (buildTable b i t cols).columns.get? j =
      ((filterColumns b t.table_name cols).get? j).map fun c => buildColumn b t.table_name c j := by
  show (enumMap (fun j c => buildColumn b t.table_name c j) 0
    (filterColumns b t.table_name cols)).get? j = _
  rw [enumMap_get? _ _ 0 j]
  simp

/-- C1: for every input whose schema is named `S` (equal to the basename by
the preconditions), every table named `T` and every column `C` resolved to
it, the generated identifiers are exactly the strings `#S`, `#S.T` and
`#S.T.C`.  The embedding's input records are structures, so the result
depends only on the field values, never on an ordering of fields. -/
theorem tap_identifier_determinism (b : String) (doc : TapSchemaDocument) (res : FelisSchema)
    (h : tapToFelis b doc = Except.ok res) :
    res.name = b ∧ res.atId = "#" ++ b ∧
    ∀ i t ft, doc.tables.get? i = some t → res.tables.get? i = some ft →
      ft.name = t.table_name ∧ ft.atId = "#" ++ b ++ "." ++ t.table_name ∧
      ∀ j c fc, (filterColumns b t.table_name doc.columns).get? j = some c →
        ft.columns.get? j = some fc →
        fc.name = c.column_name ∧
        fc.atId = "#" ++ b ++ "." ++ t.table_name ++ "." ++ c.column_name := by
  have htab := (tapToFelis_tables b doc res h).2
  obtain ⟨s, hs, hname, hall, hres⟩ := (tapToFelis_ok_iff b doc res).mp h
  subst hres
  refine ⟨hname, ?_, ?_⟩
  · show "#" ++ s.schema_name = "#" ++ b
    rw [hname]
  · intro i t ft hi hft
    rw [htab i, hi] at hft
    simp only [Option.map_some', Option.some.injEq] at hft
    subst hft
    refine ⟨rfl, rfl, ?_⟩
    intro j c fc hj hfc
    rw [buildTable_columns_get?, hj] at hfc
    simp only [Option.map_some', Option.some.injEq] at hfc
    subst hfc
    exact ⟨rfl, rfl⟩

/-- Witness for C1 at the concrete `exampleDoc`. -/
theorem tap_identifier_determinism_witness :
    exampleOut.name = "sdss" ∧ exampleOut.atId = "#" ++ "sdss" ∧
    (buildColumn "sdss" "PhotoObj" objnameColumn 1).atId =
      "#" ++ "sdss" ++ "." ++ "PhotoObj" ++ "." ++ "objname" := by
  have h := tap_identifier_determinism "sdss" exampleDoc exampleOut rfl
  refine ⟨h.1, h.2.1, ?_⟩
  have h2 := h.2.2 0 photoObjTable (buildTable "sdss" 0 photoObjTable exampleDoc.columns) rfl rfl
  have h3 := h2.2.2 1 objnameColumn (buildColumn "sdss" "PhotoObj" objnameColumn 1) rfl rfl
  exact h3.2

/-- C2: each output table's columns are built, in input order, from exactly
the input columns whose `table_name` is the bare table name or the
`{schema}.{table}` form; a column matching no table by either form is in no
table's filtered list (and hence in no column list), with no error raised. -/
theorem tap_column_selection (b : String) (doc : TapSchemaDocument) (res : FelisSchema)
    (h : tapToFelis b doc = Except.ok res) :
    res.tables.length = doc.tables.length ∧
    (∀ i t ft, doc.tables.get? i = some t → res.tables.get? i = some ft →
      ft.columns = enumMap (fun j c => buildColumn b t.table_name c j) 0
        (doc.columns.filter fun c =>
          c.table_name == t.table_name || c.table_name == b ++ "." ++ t.table_name)) ∧
    (∀ c ∈ doc.columns,
      (∀ t ∈ doc.tables, c.table_name ≠ t.table_name ∧ c.table_name ≠ b ++ "." ++ t.table_name) →
      ∀ t ∈ doc.tables, c ∉ doc.columns.filter fun c2 =>
        c2.table_name == t.table_name || c2.table_name == b ++ "." ++ t.table_name) := by
  refine ⟨(tapToFelis_tables b doc res h).1, ?_, ?_⟩
  · intro i t ft hi hft
    rw [(tapToFelis_tables b doc res h).2 i, hi] at hft
    simp only [Option.map_some', Option.some.injEq] at hft
    subst hft
    rfl
  · rintro c hc hnomatch t ht hmem
    rw [List.mem_filter] at hmem
    have hpred := hmem.2
    simp only [Bool.or_eq_true, beq_iff_eq] at hpred
    rcases hpred with h1 | h1
    · exact absurd h1 (hnomatch t ht).1
    · exact absurd h1 (hnomatch t ht).2

/-- Witness for C2 at the concrete `exampleDoc`, whose `lostColumn` matches
no table. -/
theorem tap_column_selection_witness :
    exampleOut.tables.length = exampleDoc.tables.length ∧
    (buildTable "sdss" 0 photoObjTable exampleDoc.columns).columns =
      enumMap (fun j c => buildColumn "sdss" photoObjTable.table_name c j) 0
        (exampleDoc.columns.filter fun c =>
          c.table_name == photoObjTable.table_name ||
          c.table_name == "sdss" ++ "." ++ photoObjTable.table_name) ∧
    lostColumn ∉ exampleDoc.columns.filter fun c2 =>
        c2.table_name == photoObjTable.table_name ||
        c2.table_name == "sdss" ++ "." ++ photoObjTable.table_name := by
  have h := tap_column_selection "sdss" exampleDoc exampleOut rfl
  refine ⟨h.1, ?_, ?_⟩
  · exact h.2.1 0 photoObjTable (buildTable "sdss" 0 photoObjTable exampleDoc.columns) rfl rfl
  · exact h.2.2 lostColumn (by decide) (by decide) photoObjTable (by decide)

/-- C3: output tables carry `tap:table_index` equal to their 1-based input
position; each table's columns carry `tap:column_index` equal to their
1-based position in the filtered column subsequence, whose length the column
list matches. -/
theorem tap_one_based_ordinals (b : String) (doc : TapSchemaDocument) (res : FelisSchema)
    (h : tapToFelis b doc = Except.ok res) :
    res.tables.length = doc.tables.length ∧
    (∀ i t ft, doc.tables.get? i = some t → res.tables.get? i = some ft →
      ft.columns.length = (filterColumns b t.table_name doc.columns).length) ∧
    (∀ i ft, res.tables.get? i = some ft → ft.tap_table_index = i + 1 ∧
      ∀ j fc, ft.columns.get? j = some fc → fc.tap_column_index = j + 1) := by
  refine ⟨(tapToFelis_tables b doc res h).1, ?_, ?_⟩
  · intro i t ft hi hft
    rw [(tapToFelis_tables b doc res h).2 i, hi] at hft
    simp only [Option.map_some', Option.some.injEq] at hft
    subst hft
    exact enumMap_length _ 0 _
  · intro i ft hft
    rw [(tapToFelis_tables b doc res h).2 i] at hft
    rcases ho : doc.tables.get? i with _ | t
    · rw [ho] at hft; simp at hft
    · rw [ho] at hft
      simp only [Option.map_some', Option.some.injEq] at hft
      subst hft
      refine ⟨rfl, ?_⟩
      intro j fc hfc
      rw [buildTable_columns_get?] at hfc
      rcases hc : (filterColumns b t.table_name doc.columns).get? j with _ | c
      · rw [hc] at hfc; simp at hfc
      · rw [hc] at hfc
        simp only [Option.map_some', Option.some.injEq] at hfc
        subst hfc
        rfl

/-- Witness for C3 at the concrete `exampleDoc`. -/
theorem tap_one_based_ordinals_witness :
    (buildTable "sdss" 1 specObjTable exampleDoc.columns).tap_table_index = 2 ∧
    (buildColumn "sdss" photoObjTable.table_name objnameColumn 1).tap_column_index = 2 := by
  have h := tap_one_based_ordinals "sdss" exampleDoc exampleOut rfl
  constructor
  · exact (h.2.2 1 (buildTable "sdss" 1 specObjTable exampleDoc.columns) rfl).1
  · exact (h.2.2 0 (buildTable "sdss" 0 photoObjTable exampleDoc.columns) rfl).2 1
      (buildColumn "sdss" photoObjTable.table_name objnameColumn 1) rfl

/-- C4: a table's `indexes` list holds exactly one node per indexed column
of its filtered column subsequence, named `{table}_{column}_idx` with
identifier `#{table}_{column}_idx` and a single-element `columns` list
holding `#{schema}.{table}.{column}`; non-indexed columns contribute none. -/
theorem tap_index_generation (b : String) (doc : TapSchemaDocument) (res : FelisSchema)
    (h : tapToFelis b doc = Except.ok res) :
    ∀ i t ft, doc.tables.get? i = some t → res.tables.get? i = some ft →
      ft.indexes = ((doc.columns.filter fun c =>
          c.table_name == t.table_name || c.table_name == b ++ "." ++ t.table_name).filter
            fun c => c.indexed).map fun c =>
        { name := t.table_name ++ "_" ++ c.column_name ++ "_idx"
        , atId := "#" ++ t.table_name ++ "_" ++ c.column_name ++ "_idx"
        , columns := ["#" ++ b ++ "." ++ t.table_name ++ "." ++ c.column_name] } := by
  intro i t ft hi hft
  rw [(tapToFelis_tables b doc res h).2 i, hi] at hft
  simp only [Option.map_some', Option.some.injEq] at hft
  subst hft
  rfl

/-- Witness for C4 at the concrete `exampleDoc`. -/
theorem tap_index_generation_witness :
    (buildTable "sdss" 0 photoObjTable exampleDoc.columns).indexes =
      ((exampleDoc.columns.filter fun c =>
          c.table_name == photoObjTable.table_name ||
          c.table_name == "sdss" ++ "." ++ photoObjTable.table_name).filter
            fun c => c.indexed).map fun c =>
        { name := photoObjTable.table_name ++ "_" ++ c.column_name ++ "_idx"
        , atId := "#" ++ photoObjTable.table_name ++ "_" ++ c.column_name ++ "_idx"
        , columns := ["#" ++ "sdss" ++ "." ++ photoObjTable.table_name ++ "." ++ c.column_name] } :=
  tap_index_generation "sdss" exampleDoc exampleOut rfl 0 photoObjTable
    (buildTable "sdss" 0 photoObjTable exampleDoc.columns) rfl rfl

/-- C5: a column node carries a `length` field exactly when its resolved
datatype is `string` or `char`, and then its value is the input `size`. -/
theorem tap_length_field (b : String) (doc : TapSchemaDocument) (res : FelisSchema)
    (h : tapToFelis b doc = Except.ok res) :
    ∀ i t ft, doc.tables.get? i = some t → res.tables.get? i = some ft →
      ∀ j c fc, (filterColumns b t.table_name doc.columns).get? j = some c →
        ft.columns.get? j = some fc →
        fc.datatype = lookupOr felis_datatypes c.datatype ∧
        (fc.length ≠ none ↔ (fc.datatype = "string" ∨ fc.datatype = "char")) ∧
        ((fc.datatype = "string" ∨ fc.datatype = "char") → fc.length = some c.size) := by
  intro i t ft hi hft j c fc hj hfc
  rw [(tapToFelis_tables b doc res h).2 i, hi] at hft
  simp only [Option.map_some', Option.some.injEq] at hft
  subst hft
  rw [buildTable_columns_get?, hj] at hfc
  simp only [Option.map_some', Option.some.injEq] at hfc
  subst hfc
  refine ⟨rfl, ?_, ?_⟩
  · show (if lookupOr felis_datatypes c.datatype ∈ ["string", "char"]
        then some c.size else none) ≠ none ↔
      (lookupOr felis_datatypes c.datatype = "string" ∨
        lookupOr felis_datatypes c.datatype = "char")
    by_cases hd : lookupOr felis_datatypes c.datatype = "string" ∨
        lookupOr felis_datatypes c.datatype = "char"
    · rw [if_pos (by simpa using hd)]
      exact iff_of_true (Option.some_ne_none _) hd
    · rw [if_neg (by simpa using hd)]
      exact iff_of_false (by simp) hd
  · intro hsc
    show (if lookupOr felis_datatypes c.datatype ∈ ["string", "char"]
        then some c.size else none) = some c.size
    rw [if_pos (by simpa using hsc)]

/-- Witness for C5 at the concrete `exampleDoc`: `objnameColumn` is a
`varchar` of size 20. -/
theorem tap_length_field_witness :
    (buildColumn "sdss" photoObjTable.table_name objnameColumn 1).datatype =
      lookupOr felis_datatypes objnameColumn.datatype ∧
    (buildColumn "sdss" photoObjTable.table_name objnameColumn 1).length =
      some objnameColumn.size := by
  have h := tap_length_field "sdss" exampleDoc exampleOut rfl 0 photoObjTable
    (buildTable "sdss" 0 photoObjTable exampleDoc.columns) rfl rfl 1 objnameColumn
    (buildColumn "sdss" photoObjTable.table_name objnameColumn 1) rfl rfl
  exact ⟨h.1, h.2.2 (by decide)⟩

/-- C6: datatype, unit, and UCD strings absent from their normalization
table pass through to the output field unchanged and raise no error; present
keys map to the table's value, by exact case-sensitive string lookup. -/
theorem tap_lookup_passthrough (b tname : String) (j : Nat) (c : Column) :
    ((felis_datatypes.lookup c.datatype = none →
        (buildColumn b tname c j).datatype = c.datatype) ∧
     (∀ v, felis_datatypes.lookup c.datatype = some v →
        (buildColumn b tname c j).datatype = v)) ∧
    ((c.unit ≠ "" → felis_units.lookup c.unit = none →
        (buildColumn b tname c j).fits_tunit = some c.unit) ∧
     (∀ v, c.unit ≠ "" → felis_units.lookup c.unit = some v →
        (buildColumn b tname c j).fits_tunit = some v)) ∧
    ((c.ucd ≠ "" → felis_ucds.lookup c.ucd = none →
        (buildColumn b tname c j).ivoa_ucd = some c.ucd) ∧
     (∀ v, c.ucd ≠ "" → felis_ucds.lookup c.ucd = some v →
        (buildColumn b tname c j).ivoa_ucd = some v)) := by
  refine ⟨⟨?_, ?_⟩, ⟨?_, ?_⟩, ⟨?_, ?_⟩⟩
  · intro h0
    simp [buildColumn, lookupOr, h0]
  · intro v hv
    simp [buildColumn, lookupOr, hv]
  · intro hne h0
    simp [buildColumn, lookupOr, h0, hne]
  · intro v hne hv
    simp [buildColumn, lookupOr, hv, hne]
  · intro hne h0
    simp [buildColumn, lookupOr, h0, hne]
  · intro v hne hv
    simp [buildColumn, lookupOr, hv, hne]

/-- Witness for C6: `zColumn`'s strings are unmapped and pass through;
`raColumn`'s datatype and unit are mapped to the table values. -/
theorem tap_lookup_passthrough_witness :
    (buildColumn "sdss" "SpecObj" zColumn 0).datatype = "unknowntype" ∧
    (buildColumn "sdss" "SpecObj" zColumn 0).fits_tunit = some "weird unit" ∧
    (buildColumn "sdss" "SpecObj" zColumn 0).ivoa_ucd = some "weird.ucd" ∧
    (buildColumn "sdss" "PhotoObj" raColumn 0).datatype = "float" ∧
    (buildColumn "sdss" "PhotoObj" raColumn 0).fits_tunit = some "deg" := by
  have hz := tap_lookup_passthrough "sdss" "SpecObj" 0 zColumn
  have hra := tap_lookup_passthrough "sdss" "PhotoObj" 0 raColumn
  exact ⟨hz.1.1 (by decide), hz.2.1.1 (by decide) (by decide),
    hz.2.2.1 (by decide) (by decide),
    hra.1.2 "float" (by decide), hra.2.1.2 "deg" (by decide) (by decide)⟩

/-- C7 counterexample: with zero Schema records none of the claim's listed
violations holds (there is no record with a mismatched name and the count is
not more than one), yet the translation fails; the code asserts the count is
exactly one, not at most one. -/
theorem tap_preconditions_counterexample :
    tapToFelis "foo" emptyDoc = Except.error ContractViolation.schemaCount ∧
    ¬ (emptyDoc.schemas.length > 1) ∧
    (∀ s ∈ emptyDoc.schemas, s.schema_name = "foo") ∧
    (∀ t ∈ emptyDoc.tables, t.schema_name = "foo") := by
  refine ⟨rfl, by decide, ?_, ?_⟩ <;> simp [emptyDoc]

/-- C7 (amended): translation succeeds exactly when the number of Schema
records is one, the Schema's name equals the basename, and every table's
`schema_name` equals the basename; any violation yields a fatal
`ContractViolation` before any output graph is produced. -/
theorem tap_preconditions (b : String) (doc : TapSchemaDocument) :
    (∃ res, tapToFelis b doc = Except.ok res) ↔
      (doc.schemas.length = 1 ∧ (∀ s ∈ doc.schemas, s.schema_name = b) ∧
        (∀ t ∈ doc.tables, t.schema_name = b)) := by
  constructor
  · rintro ⟨res, h⟩
    obtain ⟨s, hs, hname, hall, -⟩ := (tapToFelis_ok_iff b doc res).mp h
    refine ⟨by rw [hs]; rfl, ?_, hall⟩
    intro s2 hs2
    rw [hs, List.mem_singleton] at hs2
    subst hs2
    exact hname
  · rintro ⟨hlen, hnames, hall⟩
    obtain ⟨s, hs⟩ := List.length_eq_one.mp hlen
    exact ⟨_, (tapToFelis_ok_iff b doc _).mpr
      ⟨s, hs, hnames s (by rw [hs]; exact List.mem_singleton_self s), hall, rfl⟩⟩

/-- Witness for C7 at the concrete `exampleDoc`, which satisfies all
preconditions. -/
theorem tap_preconditions_witness :
    ∃ res, tapToFelis "sdss" exampleDoc = Except.ok res :=
  (tap_preconditions "sdss" exampleDoc).mpr (by decide)

/-- C8: the output carries content-independent fixed fields: the version
block is `{current: v1, compatible: [v1], read_compatible: [v1]}`, every
table's `primaryKey` is the empty string, and every column's `nullable` is
`false`. -/
theorem tap_fixed_fields (b : String) (doc : TapSchemaDocument) (res : FelisSchema)
    (h : tapToFelis b doc = Except.ok res) :
    res.version = { current := "v1", compatible := ["v1"], read_compatible := ["v1"] } ∧
    ∀ i ft, res.tables.get? i = some ft → ft.primaryKey = "" ∧
      ∀ j fc, ft.columns.get? j = some fc → fc.nullable = false := by
  obtain ⟨s, hs, hname, hall, hres⟩ := (tapToFelis_ok_iff b doc res).mp h
  constructor
  · rw [hres]
  · intro i ft hft
    rw [(tapToFelis_tables b doc res h).2 i] at hft
    rcases ho : doc.tables.get? i with _ | t
    · rw [ho] at hft; simp at hft
    · rw [ho] at hft
      simp only [Option.map_some', Option.some.injEq] at hft
      subst hft
      refine ⟨rfl, ?_⟩
      intro j fc hfc
      rw [buildTable_columns_get?] at hfc
      rcases hc : (filterColumns b t.table_name doc.columns).get? j with _ | c
      · rw [hc] at hfc; simp at hfc
      · rw [hc] at hfc
        simp only [Option.map_some', Option.some.injEq] at hfc
        subst hfc
        rfl

/-- Witness for C8 at the concrete `exampleDoc`. -/
theorem tap_fixed_fields_witness :
    exampleOut.version = { current := "v1", compatible := ["v1"], read_compatible := ["v1"] } ∧
    (buildTable "sdss" 0 photoObjTable exampleDoc.columns).primaryKey = "" := by
  have h := tap_fixed_fields "sdss" exampleDoc exampleOut rfl
  exact ⟨h.1, (h.2 0 (buildTable "sdss" 0 photoObjTable exampleDoc.columns) rfl).1⟩

/-- C9 counterexample: on a failing validation with empty stdout, the
stdout stream's contents are not logged at all (the code logs stdout only
when it is non-empty), so "the contents of both streams are logged" fails. -/
theorem validate_status_counterexample :
    (validate "out.yaml" "" "ERROR:felis:bad\n" 1).1 = 1 ∧
    "" ∉ (validate "out.yaml" "" "ERROR:felis:bad\n" 1).2 := by
  decide

/-- C9 (amended): `validate` returns exactly the subprocess's exit status
and `main` returns it when validation is enabled (0 when skipped); on a
non-zero status or unexpected stderr, the stderr contents are logged at
error severity and the stdout contents are logged when non-empty, without
raising; when the status is 0 and stderr matches exactly, nothing is
logged. -/
theorem validate_behavior (filename out err : String) (rc : Int) :
    (validate filename out err rc).1 = rc ∧
    mainStatus true rc = rc ∧ mainStatus false rc = 0 ∧
    (rc = 0 → err = "INFO:felis:Validating " ++ filename ++ "\n" →
      (validate filename out err rc).2 = []) ∧
    ((rc ≠ 0 ∨ err ≠ "INFO:felis:Validating " ++ filename ++ "\n") →
      err ∈ (validate filename out err rc).2 ∧
      (out ≠ "" → out ∈ (validate filename out err rc).2)) := by
  refine ⟨?_, rfl, rfl, ?_, ?_⟩
  · unfold validate
    by_cases hc : rc ≠ 0 ∨ err ≠ "INFO:felis:Validating " ++ filename ++ "\n"
    · rw [if_pos hc]
    · rw [if_neg hc]
  · intro h0 herr
    unfold validate
    rw [if_neg (by push_neg; exact ⟨h0, herr⟩)]
  · intro hc
    unfold validate
    rw [if_pos hc]
    constructor
    · simp
    · intro hout
      rw [if_pos hout]
      simp

/-- Witness for C9 at the failure case of the repository's own test file:
non-zero status, non-empty stdout, mismatched stderr. -/
theorem validate_behavior_witness :
    (validate "failure.json" "some output"
        "INFO:felis:Validating failure.json\nERROR:felis:Some sort of error!\n" 1).1 = 1 ∧
    "INFO:felis:Validating failure.json\nERROR:felis:Some sort of error!\n" ∈
      (validate "failure.json" "some output"
        "INFO:felis:Validating failure.json\nERROR:felis:Some sort of error!\n" 1).2 ∧
    "some output" ∈
      (validate "failure.json" "some output"
        "INFO:felis:Validating failure.json\nERROR:felis:Some sort of error!\n" 1).2 := by
  have h := validate_behavior "failure.json" "some output"
    "INFO:felis:Validating failure.json\nERROR:felis:Some sort of error!\n" 1
  have hd := h.2.2.2.2 (Or.inl (by decide))
  exact ⟨h.1, hd.1, hd.2 (by decide)⟩

/-- C10: a column whose input unit is one of the keys the unit table maps
to the empty string (exactly `None`, `Dimensionless`, `solar metallicity`)
gets a present-but-empty `fits:tunit` field, because the non-emptiness test
is on the input unit while the stored value is the mapped one. -/
theorem tap_empty_unit_present (b tname : String) (j : Nat) (c : Column)
    (h : c.unit = "None" ∨ c.unit = "Dimensionless" ∨ c.unit = "solar metallicity") :
    c.unit ≠ "" ∧ (buildColumn b tname c j).fits_tunit = some "" ∧
    (felis_units.filter fun p => p.2 == "").map Prod.fst =
      ["None", "Dimensionless", "solar metallicity"] := by
  refine ⟨?_, ?_, by decide⟩
  · rcases h with h | h | h <;> rw [h] <;> decide
  · show (if c.unit ≠ "" then some (lookupOr felis_units c.unit) else none) = some ""
    rcases h with h | h | h <;> rw [h] <;> decide

/-- Witness for C10 at the concrete `objnameColumn`, whose unit is `None`. -/
theorem tap_empty_unit_present_witness :
    objnameColumn.unit ≠ "" ∧
    (buildColumn "sdss" "PhotoObj" objnameColumn 1).fits_tunit = some "" ∧
    (felis_units.filter fun p => p.2 == "").map Prod.fst =
      ["None", "Dimensionless", "solar metallicity"] :=
  tap_empty_unit_present "sdss" "PhotoObj" 1 objnameColumn (Or.inl rfl)

end TapSchema
